import Mathlib

/-!
Verification of the AmazonProductInsights repository (amazonfinder.py,
fetchinsights.py) against its natural-language specification.

The Python code is shallowly embedded: loosely-typed Python values become
the inductive `PyVal`; Python dicts become association lists (`PyRecord`)
whose order models insertion order; functions that can raise return
`Except`; external collaborators (HTTP fetches, the DynamoDB store, the
DeepSeek API, `json.loads`) are passed in as explicit data or function
parameters, as the spec directs for ambient capabilities.
-/

/-- Model of a loosely-typed Python value as it occurs in this program:
`None`, booleans, ints, floats, `decimal.Decimal` (as stored in DynamoDB),
strings, lists and dicts (dicts as ordered association lists, matching
Python insertion order). Ints, floats and Decimals carry their numeric
value as a rational. -/
inductive PyVal where
  | none
  | bool (b : Bool)
  | int (n : Int)
  | float (q : Rat)
  | dec (q : Rat)
  | str (s : String)
  | list (xs : List PyVal)
  | dict (m : List (String × PyVal))
deriving Repr

/-- A Python dict with string keys, as an ordered association list. -/
abbrev PyRecord := List (String × PyVal)

/-- Python `is None` test. -/
def PyVal.isNone : PyVal → Bool
  | .none => true
  | _ => false

/-- True when the value is a Python `dict`. -/
def PyVal.isDict : PyVal → Bool
  | .dict _ => true
  | _ => false

/-- True when the value is a Python number (int, float or Decimal). -/
def PyVal.isNumber : PyVal → Bool
  | .int _ => true
  | .float _ => true
  | .dec _ => true
  | _ => false

/-- Python type name of a value, used to render error messages. -/
def PyVal.typeName : PyVal → String
  | .none => "NoneType"
  | .bool _ => "bool"
  | .int _ => "int"
  | .float _ => "float"
  | .dec _ => "decimal.Decimal"
  | .str _ => "str"
  | .list _ => "list"
  | .dict _ => "dict"

/-- Python truthiness (`if value:`): `None`, `False`, zero, empty string,
empty list and empty dict are falsy. (A rational is zero iff its
numerator is, so zero tests on floats and Decimals compare numerators.) -/
def pyTruthy : PyVal → Bool
  | .none => false
  | .bool b => b
  | .int n => n ≠ 0
  | .float q => q.num ≠ 0
  | .dec q => q.num ≠ 0
  | .str s => s ≠ ""
  | .list xs => !xs.isEmpty
  | .dict m => !m.isEmpty

/-- Substring test on char lists: does `n` occur as a contiguous infix? -/
def listContainsSeg (n : List Char) : List Char → Bool
  | [] => n.isEmpty
  | c :: cs => n.isPrefixOf (c :: cs) || listContainsSeg n cs

/-- Python `needle in haystack` on strings (substring containment). -/
def strContains (needle hay : String) : Bool :=
  listContainsSeg needle.toList hay.toList

/-- Whitespace-strip on char lists (Python `str.strip()`). -/
def trimChars (cs : List Char) : List Char :=
  ((cs.dropWhile Char.isWhitespace).reverse.dropWhile Char.isWhitespace).reverse

/-- Python `str.strip()`. -/
def pyStrip (s : String) : String := String.mk (trimChars s.toList)

/-- Value of an unsigned digit string. -/
def digitsVal (cs : List Char) : Nat :=
  cs.foldl (fun a c => a * 10 + (c.toNat - 48)) 0

/-- Core of Python `float(str)`: after stripping whitespace and the sign,
parse `digits [. digits] [e|E [sign] digits]`, requiring at least one
digit in the mantissa. (`inf`/`nan` literals are not modelled; they do not
occur in this program's data.) The rational is assembled with `mkRat`
from integer mantissa and power-of-ten denominator. -/
def parseFloatCore (cs : List Char) : Option Rat :=
  let intPart := cs.takeWhile Char.isDigit
  let rest := cs.dropWhile Char.isDigit
  let (fracPart, rest2) :=
    match rest with
    | '.' :: r => (r.takeWhile Char.isDigit, r.dropWhile Char.isDigit)
    | _ => ([], rest)
  if intPart.isEmpty ∧ fracPart.isEmpty then Option.none
  else
    let mantNum : Nat := digitsVal intPart * 10 ^ fracPart.length + digitsVal fracPart
    let mantDen : Nat := 10 ^ fracPart.length
    match rest2 with
    | [] => some (mkRat mantNum mantDen)
    | e :: r3 =>
      if e = 'e' ∨ e = 'E' then
        let (eneg, r4) :=
          match r3 with
          | '+' :: r => (false, r)
          | '-' :: r => (true, r)
          | _ => (false, r3)
        if r4.isEmpty ∨ ¬ r4.all Char.isDigit then Option.none
        else if eneg then some (mkRat mantNum (mantDen * 10 ^ digitsVal r4))
        else some (mkRat (mantNum * 10 ^ digitsVal r4) mantDen)
      else Option.none

/-- Python `float(s)` for a string `s`: optional surrounding whitespace,
optional sign, then a decimal literal; `Option.none` models `ValueError`. -/
def parseFloat (s : String) : Option Rat :=
  match trimChars s.toList with
  | '+' :: r => parseFloatCore r
  | '-' :: r => (parseFloatCore r).map Rat.neg
  | r => parseFloatCore r

/-- Python `float(value)` on an arbitrary value; `Option.none` models the
raised `ValueError`/`TypeError`. -/
def pyFloat : PyVal → Option Rat
  | .int n => some (mkRat n 1)
  | .float q => some q
  | .dec q => some q
  | .bool b => some (mkRat (if b then 1 else 0) 1)
  | .str s => parseFloat s
  | _ => Option.none

/-! ## normalize_response (amazonfinder.py lines 13-110) -/

/-- Default values table of `normalize_response` (source lines 37-54);
`last_updated` defaults to the current UTC timestamp, passed in as `now`. -/
def default_values (now : String) : String → PyVal
  | "badge" => .str "None"
  | "highly_rated" => .str "No"
  | "search_term" => .str ""
  | "mrp" => .int 0
  | "review_summary" => .str "Not Available"
  | "about_this_item" => .str "Not Available"
  | "asin" => .str ""
  | "last_updated" => .str now
  | "sponsored" => .str "No"
  | "review_text" => .list []
  | "price" => .int 0
  | "bought_recently" => .str "NA"
  | "detail_url" => .str "Not Available"
  | "all_review_url" => .str "Not Available"
  | "rating" => .int 0
  | "name" => .str ""
  | _ => .none

/-- Alias table of `normalize_response` (source lines 57-75), in source
order: for each canonical field, the ordered list of acceptable source
keys, capitalized key(s) first. -/
def field_mappings : List (String × List String) :=
  [ ("badge", ["Badge", "badge"]),
    ("highly_rated", ["HighlyRated", "highly_rated"]),
    ("search_term", ["SearchTerm", "searchTerm", "search_term"]),
    ("mrp", ["MRP", "mrp"]),
    ("review_summary", ["ReviewSummary", "review_summary"]),
    ("about_this_item", ["AboutThisItem", "about_this_item"]),
    ("asin", ["ASIN", "asin"]),
    ("last_updated", ["LastUpdated", "last_updated", "Date"]),
    ("sponsored", ["Sponsored", "sponsored"]),
    ("review_text", ["ReviewText", "review_text"]),
    ("price", ["Price", "price"]),
    ("bought_recently", ["BoughtRecently", "bought_recently"]),
    ("detail_url", ["DetailURL", "detail_url"]),
    ("all_review_url", ["AllReviewURL", "all_review_url"]),
    ("rating", ["Rating", "rating"]),
    ("name", ["Name", "name"]) ]

/-- The canonical field names, in output order. -/
def canonicalFields : List String := field_mappings.map Prod.fst

/-- The alias scan of `normalize_response` (source lines 82-86): try the
possible keys in order and return the stored value of the first key
present in the mapping (which may itself be `None`); `Option.none` when no
alias is present at all. -/
def lookupAlias (product : PyRecord) : List String → Option PyVal
  | [] => Option.none
  | k :: ks =>
    match product.lookup k with
    | some v => some v
    | Option.none => lookupAlias product ks

/-- Whether a canonical field is one of the numeric fields coerced with
`float` (source line 94). -/
def isNumericField (field : String) : Bool :=
  field = "price" || field = "mrp" || field = "rating"

/-- Per-field value processing of `normalize_response` (source lines
88-101): a missing-or-`None` selected value is replaced by the field's
default; then `price`/`mrp`/`rating` are coerced with `float`, a coercion
failure falling back to the default. -/
def processValue (now field : String) (v0 : PyVal) : PyVal :=
  let value := if v0.isNone then default_values now field else v0
  if isNumericField field then
    match pyFloat value with
    | some q => .float q
    | Option.none => default_values now field
  else value

/-- The standardized dictionary built for one input product (source lines
78-101): one entry per canonical field, in `field_mappings` order. -/
def normalizeProduct (now : String) (product : PyRecord) : PyRecord :=
  field_mappings.map
    (fun e => (e.1, processValue now e.1 ((lookupAlias product e.2).getD .none)))

/-- Embedding of `normalize_response` (source lines 13-110): a non-list input yields
`[]`; non-dict entries are skipped; each dict entry is standardized. The
function is total — no input makes it raise. -/
def normalize_response (now : String) (product_details : PyVal) : List PyRecord :=
  match product_details with
  | .list xs =>
    xs.filterMap (fun x =>
      match x with
      | .dict m => some (normalizeProduct now m)
      | _ => Option.none)
  | _ => []

/-! ## fetch_product_list (amazonfinder.py lines 113-239) -/

/-- Abstract view of one `.s-main-slot .s-result-item` node on the search
results page, exposing exactly what the selectors of `fetch_product_list`
read from it. Texts extracted with `get_text(strip=True)` arrive stripped;
fields extracted with `.text` arrive raw and the code strips them itself. -/
structure ListingNode where
  nameTag : Option String
  sponsoredText : Option String
  href : Option String
  dataAsin : Option String
  priceText : Option String
  mrpText : Option (Option String)
  ratingText : Option String
  boughtText : Option String
  badgeText : Option String
  inHighlyRated : Bool
deriving Repr

/-- One partial product record as built by `fetch_product_list` (source
lines 212-227); the four detail fields start at their initial values and
are overwritten by the merge step. -/
structure ProductInfo where
  name : String
  detail_url : String
  price : Rat
  mrp : Rat
  asin : String
  rating : Rat
  bought_recently : String
  sponsored : String
  badge : String
  highly_rated : String
  review_text : PyVal
  about_this_item : PyVal
  all_review_url : PyVal
  review_summary : PyVal
deriving Repr

/-- Drop the thousands separator and currency sign, as the chained
`.replace(",", "").replace("₹", "")` does. -/
def removePriceChars (s : String) : String :=
  String.mk (s.toList.filter (fun c => c != ',' && c != '₹'))

/-- Python `str.split()` with no argument: split on whitespace runs,
discarding empty tokens. -/
def pySplitWs (s : String) : List String :=
  let step := fun (acc : List String × List Char) (c : Char) =>
    if c.isWhitespace then
      match acc.2 with
      | [] => (acc.1, ([] : List Char))
      | t => (acc.1 ++ [String.mk t.reverse], [])
    else (acc.1, c :: acc.2)
  let r := s.toList.foldl step ([], [])
  match r.2 with
  | [] => r.1
  | t => r.1 ++ [String.mk t.reverse]

/-- Body of the scan loop of `fetch_product_list` for one result node
(source lines 150-231): `Except.error` models a propagated exception
(unparsable price text, empty rating text), `.ok Option.none` a skipped
node (unresolvable name or missing detail link), `.ok (some p)` a
collected partial record. -/
def processListingNode (node : ListingNode) : Except String (Option ProductInfo) :=
  let product_name := node.nameTag.getD "Unknown"
  if product_name = "Unknown" then .ok Option.none
  else
    let sponsored :=
      match node.sponsoredText with
      | some t => if strContains "Sponsored" t then "Yes" else "No"
      | Option.none => "No"
    let link :=
      match node.href with
      | some h => "https://www.amazon.in" ++ h
      | Option.none => "NA"
    if link = "NA" then .ok Option.none
    else do
      let asin := node.dataAsin.getD "NA"
      let price ←
        match node.priceText with
        | some t =>
          match parseFloat (removePriceChars t) with
          | some q => Except.ok q
          | Option.none =>
            Except.error ("could not convert string to float: " ++ removePriceChars t)
        | Option.none => Except.ok (mkRat 0 1)
      let mrp :=
        match node.mrpText with
        | some (some t) =>
          match parseFloat (removePriceChars (pyStrip t)) with
          | some q => q
          | Option.none => price
        | some Option.none => price
        | Option.none => price
      let rating_text := node.ratingText.getD "NA"
      let rating ←
        if rating_text = "NA" then Except.ok (mkRat 0 1)
        else
          match pySplitWs rating_text with
          | [] => Except.error "list index out of range"
          | word :: _ =>
            match parseFloat word with
            | some q => Except.ok q
            | Option.none => Except.error ("could not convert string to float: " ++ word)
      let bought_recently :=
        match node.boughtText with
        | some t => if strContains "bought in past month" t then pyStrip t else "NA"
        | Option.none => "NA"
      let badge :=
        match node.badgeText with
        | some t => pyStrip t
        | Option.none => "None"
      let highly_rated := if node.inHighlyRated then "Yes" else "No"
      Except.ok (some
        { name := product_name, detail_url := link, price := price, mrp := mrp,
          asin := asin, rating := rating, bought_recently := bought_recently,
          sponsored := sponsored, badge := badge, highly_rated := highly_rated,
          review_text := .list [], about_this_item := .str "Not Available",
          all_review_url := .str "Not Available", review_summary := .str "Not Available" })

/-- The scan loop of `fetch_product_list`: `count` is the number of
records collected so far; after each collected record the loop stops once
five are gathered (source lines 233-234). -/
def listingLoop : List ListingNode → Nat → Except String (List ProductInfo)
  | [], _ => .ok []
  | node :: rest, count =>
    match processListingNode node with
    | .error e => .error e
    | .ok Option.none => listingLoop rest count
    | .ok (some p) =>
      if count + 1 ≥ 5 then .ok [p]
      else do
        let tl ← listingLoop rest (count + 1)
        Except.ok (p :: tl)

/-- Result of `fetch_product_list`: either the error dictionary returned
for a non-200 page fetch (source line 141) or the collected records. -/
inductive ListingOutcome where
  | errorDict (msg : String)
  | products (ps : List ProductInfo)
deriving Repr

/-- Embedding of `fetch_product_list` (source lines 113-239). The page fetch is an
external capability: its status code and the parsed result nodes are
passed in. The search term only shapes the request URL, not the logic.
The final `isinstance` validation (lines 236-237) is vacuous in the typed
embedding. -/
def fetch_product_list (search_term : String) (status : Nat)
    (nodes : List ListingNode) : Except String ListingOutcome :=
  let _ := search_term
  if status ≠ 200 then .ok (.errorDict ("Failed to fetch Amazon page: " ++ toString status))
  else do
    let ps ← listingLoop nodes 0
    Except.ok (.products ps)

/-! ## fetch_product_detail and the parallel fan-out (lines 259-335) -/

/-- Abstract view of a parsed product-detail page, exposing what the
selectors of `fetch_product_detail` read: the bullet texts of
`#feature-bullets` when present, per review div the text of its first
span when present, the `see all reviews` href, and for `#product-summary`
whether the section exists and the text of its `p span` when it does. -/
structure DetailPage where
  featureBullets : Option (List String)
  reviewSpans : List (Option String)
  allReviewsHref : Option String
  productSummarySection : Option (Option String)
deriving Repr

/-- The dictionary returned by `fetch_product_detail` for one URL: both
the success branch and the non-200 branch carry the requested `url`; on
failure the four detail fields are `None` (source lines 305-321). -/
structure DetailResult where
  url : String
  status : String
  about_this_item : PyVal
  review_text : PyVal
  all_review_url : PyVal
  review_summary : PyVal
deriving Repr

/-- Embedding of `fetch_product_detail` (source lines 259-321), with the HTTP response
(status code and parsed page) passed in as the fetch capability. -/
def fetch_product_detail (product_url : String) (status : Nat) (page : DetailPage) :
    DetailResult :=
  if status = 200 then
    { url := product_url
      status := "Success"
      about_this_item :=
        match page.featureBullets with
        | some lis => .str (String.intercalate "\n" (lis.map pyStrip))
        | Option.none => .str "Not Available"
      review_text := .list ((page.reviewSpans.filterMap id).map PyVal.str)
      all_review_url :=
        match page.allReviewsHref with
        | some h => .str ("https://www.amazon.in" ++ h)
        | Option.none => .str "Not Available"
      review_summary :=
        match page.productSummarySection with
        | some (some t) => .str (pyStrip t)
        | some Option.none => .str "Not Available"
        | Option.none => .str "Not Available" }
  else
    { url := product_url
      status := "Failed - HTTP " ++ toString status
      about_this_item := .none
      review_text := .none
      all_review_url := .none
      review_summary := .none }

/-- Embedding of `fetch_product_details_parallel` (source lines 323-335): one detail
fetch per URL through a bounded worker pool; futures are read back in
submission order, and a worker whose fetch raised (modelled by
`net url = .error`) is logged and skipped, not propagated. -/
def fetch_product_details_parallel (product_urls : List String)
    (net : String → Except String (Nat × DetailPage)) : List DetailResult :=
  product_urls.filterMap (fun url =>
    match net url with
    | .ok (st, page) => some (fetch_product_detail url st page)
    | .error _ => Option.none)

/-! ## The merge step of lambda_handler (amazonfinder.py lines 513-531) -/

/-- Merge one listing record with its detail result: the first detail
result whose `url` equals the record's `detail_url` exactly wins; when
none matches, the all-default stub `{about_this_item: "NA", review_text:
[], all_review_url: "NA", review_summary: "NA"}` is substituted. -/
def mergeOne (product : ProductInfo) (detailed_results : List DetailResult) : ProductInfo :=
  match detailed_results.find? (fun d => d.url == product.detail_url) with
  | some d =>
    { product with
      about_this_item := d.about_this_item, review_text := d.review_text,
      all_review_url := d.all_review_url, review_summary := d.review_summary }
  | Option.none =>
    { product with
      about_this_item := .str "NA", review_text := .list [],
      all_review_url := .str "NA", review_summary := .str "NA" }

/-- The merge loop: update every listing record in place (source lines
514-531), which is a map over the listing records. -/
def mergeDetails (product_details : List ProductInfo)
    (detailed_results : List DetailResult) : List ProductInfo :=
  product_details.map (fun p => mergeOne p detailed_results)

/-- The dictionary a `ProductInfo` denotes (source lines 212-227 plus the
merge update), in insertion order, as handed to `normalize_response`. -/
def ProductInfo.toRecord (p : ProductInfo) : PyRecord :=
  [("name", .str p.name), ("detail_url", .str p.detail_url), ("price", .float p.price),
   ("mrp", .float p.mrp), ("asin", .str p.asin), ("rating", .float p.rating),
   ("bought_recently", .str p.bought_recently), ("sponsored", .str p.sponsored),
   ("badge", .str p.badge), ("highly_rated", .str p.highly_rated),
   ("review_text", p.review_text), ("about_this_item", p.about_this_item),
   ("all_review_url", p.all_review_url), ("review_summary", p.review_summary)]

/-! ## store_to_dynamodb (amazonfinder.py lines 337-380) -/

/-- Python dict assignment `m[k] = v`: overwrite in place when the key
exists, append otherwise. -/
def setKey (m : PyRecord) (k : String) (v : PyVal) : PyRecord :=
  if (m.lookup k).isSome then m.map (fun kv => if kv.1 = k then (k, v) else kv)
  else m ++ [(k, v)]

/-- The `Decimal(str(x)) if isinstance(x, float) else x` conversion
applied to the numeric attributes (source lines 362-364). -/
def toDecimalIfFloat : PyVal → PyVal
  | .float q => .dec q
  | v => v

/-- The `asin == "NA"` comparison of the skip guard (source line 350):
Python `==` against a string literal is only true for an equal string. -/
def asinIsNA : PyVal → Bool
  | .str s => s == "NA"
  | _ => false

/-- Python `product[k]`: the stored value, or a raised `KeyError`. -/
def pvIndexE (m : PyRecord) (k : String) : Except String PyVal :=
  match m.lookup k with
  | some v => .ok v
  | Option.none => .error ("KeyError: " ++ k)

/-- The mutation `store_to_dynamodb` applies to each product before the
guards: set `SearchTerm` and `Date` (source lines 345-346). -/
def storeMutate (search_term now : String) (p : PyRecord) : PyRecord :=
  setKey (setKey p "SearchTerm" (.str search_term)) "Date" (.str now)

/-- The DynamoDB item built for one product (source lines 358-375), with
direct `product[...]` indexing raising `KeyError` on a missing key and
`.get` defaults for the detail attributes. -/
def mkDynamoItem (p1 : PyRecord) : Except String PyRecord := do
  let asin ← pvIndexE p1 "asin"
  let searchTermV ← pvIndexE p1 "SearchTerm"
  let nameV ← pvIndexE p1 "name"
  let priceV ← pvIndexE p1 "price"
  let mrpV ← pvIndexE p1 "mrp"
  let ratingV ← pvIndexE p1 "rating"
  let boughtV ← pvIndexE p1 "bought_recently"
  let sponsoredV ← pvIndexE p1 "sponsored"
  let highRatedV ← pvIndexE p1 "highly_rated"
  let badgeV ← pvIndexE p1 "badge"
  let dateV ← pvIndexE p1 "Date"
  Except.ok
    [("ASIN", asin), ("SearchTerm", searchTermV), ("Name", nameV),
     ("Price", toDecimalIfFloat priceV), ("MRP", toDecimalIfFloat mrpV),
     ("Rating", toDecimalIfFloat ratingV),
     ("BoughtRecently", boughtV), ("Sponsored", sponsoredV),
     ("HighlyRated", highRatedV), ("Badge", badgeV),
     ("DetailURL", (p1.lookup "detail_url").getD (.str "NA")),
     ("AboutThisItem", (p1.lookup "about_this_item").getD (.str "NA")),
     ("ReviewText", (p1.lookup "review_text").getD (.list [])),
     ("AllReviewURL", (p1.lookup "all_review_url").getD (.str "NA")),
     ("ReviewSummary", (p1.lookup "review_summary").getD (.str "NA")),
     ("LastUpdated", dateV)]

/-- Embedding of `store_to_dynamodb` (source lines 337-380): mutate each product with
`SearchTerm` and `Date`, skip products whose `asin` is falsy or `"NA"`
or whose `SearchTerm` is falsy, and put one item per remaining product.
Returns the attempted puts together with the (mutated) product list; an
`Except.error` models a propagated `KeyError`. -/
def store_to_dynamodb : List PyRecord → String → String →
    Except String (List PyRecord × List PyRecord)
  | [], _, _ => .ok ([], [])
  | p :: rest, search_term, now =>
    let p1 := storeMutate search_term now p
    let asin := (p1.lookup "asin").getD .none
    if !pyTruthy asin || asinIsNA asin then do
      let (ws, ps) ← store_to_dynamodb rest search_term now
      Except.ok (ws, p1 :: ps)
    else if !pyTruthy ((p1.lookup "SearchTerm").getD .none) then do
      let (ws, ps) ← store_to_dynamodb rest search_term now
      Except.ok (ws, p1 :: ps)
    else do
      let item ← mkDynamoItem p1
      let (ws, ps) ← store_to_dynamodb rest search_term now
      Except.ok (item :: ws, p1 :: ps)

/-! ## lambda_handler of amazonfinder.py (lines 442-566) -/

/-- The Decimal-to-float conversion the handler applies to each cached
item before normalizing (source lines 473-476). -/
def decConvertRecord (item : PyRecord) : PyRecord :=
  item.map (fun kv =>
    match kv.2 with
    | .dec q => (kv.1, PyVal.float q)
    | _ => kv)

/-- The external world of one `lambda_handler` call: the outcome of the
cache query for the request's term (`fetch_cached_results` catches its
own store errors and returns `[]`), the search-page fetch outcome, the
per-URL detail fetch outcomes, and the current UTC timestamp. -/
structure FinderWorld where
  cache : List PyRecord
  listingStatus : Nat
  listingNodes : List ListingNode
  net : String → Except String (Nat × DetailPage)
  now : String

/-- The JSON body shapes `lambda_handler` can return. -/
inductive HandlerBody where
  | missingTerm
  | cachedHit (product_details : List PyRecord)
  | noProducts
  | freshResult (product_details : List PyRecord)
  | serverError (msg : String)
deriving Repr

/-- An HTTP-style handler response. -/
structure LambdaResponse where
  statusCode : Nat
  body : HandlerBody
deriving Repr

/-- Trace of the externally visible calls a handler run performs: whether
the listing extractor ran, which detail URLs were fanned out, and which
items were put to the cache table. -/
structure FinderEffects where
  listingFetched : Bool
  detailUrlsFetched : List String
  dbWrites : List PyRecord
deriving Repr

/-- Embedding of `lambda_handler` of amazonfinder.py (source lines 442-566). A missing
or empty `searchTerm` is the empty string. A non-empty cache result is
returned (converted and normalized) without any fetch or store. On a
miss, the listing fetch, detail fan-out, merge, normalization and store
run in order; the response carries the records as mutated by the store
step, and any propagated exception becomes a 500 response. -/
def lambda_handler (search_term : String) (w : FinderWorld) :
    LambdaResponse × FinderEffects :=
  if search_term = "" then (⟨400, .missingTerm⟩, ⟨false, [], []⟩)
  else
    let cached_results := w.cache
    if !cached_results.isEmpty then
      let conv := cached_results.map decConvertRecord
      (⟨200, .cachedHit (normalize_response w.now (.list (conv.map PyVal.dict)))⟩,
       ⟨false, [], []⟩)
    else
      match fetch_product_list search_term w.listingStatus w.listingNodes with
      | .error e => (⟨500, .serverError e⟩, ⟨true, [], []⟩)
      | .ok (.errorDict _) =>
        -- the error dict is truthy, so the guard falls through; iterating
        -- it yields the key "error", and indexing that string with
        -- "detail_url" raises a TypeError caught at the boundary
        (⟨500, .serverError "string indices must be integers"⟩, ⟨true, [], []⟩)
      | .ok (.products product_details) =>
        if product_details.isEmpty then (⟨400, .noProducts⟩, ⟨true, [], []⟩)
        else
          let product_urls :=
            (product_details.filter (fun p => p.detail_url != "NA")).map
              (fun p => p.detail_url)
          let detailed_results := fetch_product_details_parallel product_urls w.net
          let merged := mergeDetails product_details detailed_results
          let normalized :=
            normalize_response w.now (.list (merged.map (fun p => PyVal.dict p.toRecord)))
          match store_to_dynamodb normalized search_term w.now with
          | .error e => (⟨500, .serverError e⟩, ⟨true, product_urls, []⟩)
          | .ok (writes, mutated) =>
            (⟨200, .freshResult mutated⟩, ⟨true, product_urls, writes⟩)

/-! ## fetchinsights.py: validation and the insights handler -/

/-- Exceptions distinguished inside `validate_deepseek_response`: a
`json.JSONDecodeError` gets its own handler there, every other exception
is wrapped generically. -/
inductive VErr where
  | jsonDecode (msg : String)
  | other (msg : String)
deriving Repr

/-- Python `value.get(key, default)`: only dicts have `.get`; anything
else raises an `AttributeError`. -/
def pvGetE (v : PyVal) (k : String) (dflt : PyVal) : Except VErr PyVal :=
  match v with
  | .dict m => .ok ((m.lookup k).getD dflt)
  | _ => .error (.other ("'" ++ v.typeName ++ "' object has no attribute 'get'"))

/-- Python `value[0]` as used on `choices` (reached only when `value` is
truthy). -/
def pvIndexZero (v : PyVal) : Except VErr PyVal :=
  match v with
  | .list [] => .error (.other "list index out of range")
  | .list (x :: _) => .ok x
  | .str s =>
    match s.toList with
    | [] => .error (.other "string index out of range")
    | c :: _ => .ok (.str (String.mk [c]))
  | .dict _ => .error (.other "KeyError: 0")
  | _ => .error (.other ("'" ++ v.typeName ++ "' object is not subscriptable"))

/-- Python `key in insights` for a string key: key membership for dicts,
element equality for lists, substring test for strings; any other type
raises a `TypeError`. -/
def pyContainsKey (k : String) (v : PyVal) : Except VErr Bool :=
  match v with
  | .dict m => .ok (m.any (fun kv => kv.1 == k))
  | .list xs =>
    .ok (xs.any (fun x =>
      match x with
      | .str s => s == k
      | _ => false))
  | .str s => .ok (strContains k s)
  | _ => .error (.other ("argument of type '" ++ v.typeName ++ "' is not iterable"))

/-- Python `insights[key]` for a string key (after a successful `in`
check): dict lookup; lists and strings raise a `TypeError`. -/
def pyIndexStr (v : PyVal) (k : String) : Except VErr PyVal :=
  match v with
  | .dict m =>
    match m.lookup k with
    | some w => .ok w
    | Option.none => .error (.other ("KeyError: " ++ k))
  | .list _ => .error (.other "list indices must be integers or slices, not str")
  | .str _ => .error (.other "string indices must be integers")
  | _ => .error (.other ("'" ++ v.typeName ++ "' object is not subscriptable"))

/-- The shared prelude of `validate_deepseek_response` and
`store_deepseek_response` (source lines 62-70 and 108-116): check
`choices` is present and truthy, take its first element's
`message.content`, check it is truthy, and `json.loads` it. The JSON
parser is the external `parse` capability; a non-string content raises a
`TypeError` inside `json.loads`. -/
def extractInsights (parse : String → Except String PyVal) (response : PyVal) :
    Except VErr PyVal := do
  let choices ← pvGetE response "choices" (.list [])
  if !pyTruthy choices then
    .error (.other "Missing 'choices' in DeepSeek response.")
  else do
    let first ← pvIndexZero choices
    let message ← pvGetE first "message" (.dict [])
    let content ← pvGetE message "content" (.str "")
    if !pyTruthy content then
      .error (.other "Missing 'content' in DeepSeek response.")
    else
      match content with
      | .str s =>
        match parse s with
        | .ok insights => .ok insights
        | .error m => .error (.jsonDecode m)
      | other =>
        .error (.other ("the JSON object must be str, bytes or bytearray, not " ++
          other.typeName))

/-- The five required top-level keys (source lines 72-78), in check
order. -/
def requiredKeys : List String :=
  ["recommended_title", "recommended_description", "identified_gaps",
   "messaging_positioning", "opportunity_size"]

/-- The required-key loop of `validate_deepseek_response` (source lines
79-81): stop at the first key not contained in `insights`. -/
def checkRequiredKeys (insights : PyVal) : List String → Except VErr Unit
  | [] => .ok ()
  | k :: ks =>
    match pyContainsKey k insights with
    | .error e => .error e
    | .ok false => .error (.other ("Missing required field: " ++ k))
    | .ok true => checkRequiredKeys insights ks

/-- The nested-structure checks of `validate_deepseek_response` (source
lines 84-89), in source order. -/
def checkNestedDicts (insights : PyVal) : Except VErr Bool := do
  let gaps ← pyIndexStr insights "identified_gaps"
  if !gaps.isDict then .error (.other "Invalid format for 'identified_gaps'.")
  else do
    let msgPos ← pyIndexStr insights "messaging_positioning"
    if !msgPos.isDict then .error (.other "Invalid format for 'messaging_positioning'.")
    else do
      let oppSize ← pyIndexStr insights "opportunity_size"
      if !oppSize.isDict then .error (.other "Invalid format for 'opportunity_size'.")
      else .ok true

/-- Embedding of `validate_deepseek_response` (source lines 50-95): returns `True` for
a structurally valid reply; otherwise raises a `ValueError` whose message
is `Invalid JSON structure in 'content'.` for a JSON decode failure and
the wrapped inner message for every other violation. -/
def validate_deepseek_response (parse : String → Except String PyVal)
    (response : PyVal) : Except String Bool :=
  let run : Except VErr Bool := do
    let insights ← extractInsights parse response
    let _ ← checkRequiredKeys insights requiredKeys
    checkNestedDicts insights
  match run with
  | .ok b => .ok b
  | .error (.jsonDecode _) => .error "Invalid JSON structure in 'content'."
  | .error (.other m) => .error ("Error validating DeepSeek response: " ++ m)

/-- Embedding of `store_deepseek_response` (source lines 97-119): the same prelude,
with every failure (JSON decode failures included) wrapped as
`Error storing DeepSeek response: ...`. -/
def store_deepseek_response (parse : String → Except String PyVal)
    (deepseek_response : PyVal) : Except String PyVal :=
  match extractInsights parse deepseek_response with
  | .ok insights => .ok insights
  | .error (.jsonDecode m) => .error ("Error storing DeepSeek response: " ++ m)
  | .error (.other m) => .error ("Error storing DeepSeek response: " ++ m)

/-- Outcome of `handle_get_insights_request`: the `{"success": True,
"insights": ...}` dictionary or an `{"error": ...}` dictionary. -/
inductive InsightsResult where
  | success (insights : PyVal)
  | failure (msg : String)
deriving Repr

/-- The DeepSeek HTTP call outcome: status code, raw body text, and the
result of `response.json()` (which raises on a non-JSON body). -/
structure DeepSeekApi where
  status : Nat
  text : String
  jsonBody : Except String PyVal

/-- The compact per-product payload built for the DeepSeek request
(source lines 147-161); `float(...)` on the numeric attributes can raise
on malformed cached data. -/
def buildProductPayload (item : PyVal) : Except String PyRecord := do
  let get := fun (k : String) (dflt : PyVal) =>
    match item with
    | .dict m => (m.lookup k).getD dflt
    | _ => dflt
  let toFloatE := fun (v : PyVal) =>
    match pyFloat v with
    | some q => Except.ok q
    | Option.none =>
      match v with
      | .str s => Except.error ("could not convert string to float: '" ++ s ++ "'")
      | w => Except.error ("float() argument must be a string or a number, not '" ++
          w.typeName ++ "'")
  let priceQ ← toFloatE (get "Price" (.int 0))
  let mrpQ ← toFloatE (get "MRP" (.int 0))
  let ratingQ ← toFloatE (get "Rating" (.int 0))
  Except.ok
    [("name", get "Name" (.str "N/A")),
     ("price", .float priceQ), ("mrp", .float mrpQ), ("rating", .float ratingQ),
     ("boughtRecently", get "BoughtRecently" (.str "N/A")),
     ("badge", get "Badge" (.str "None")),
     ("sponsored", get "Sponsored" (.str "No")),
     ("highlyRated", get "HighlyRated" (.str "No")),
     ("aboutThisItem", get "AboutThisItem" (.str "N/A")),
     ("reviewSummary", get "ReviewSummary" (.str "N/A")),
     ("reviewText", get "ReviewText" (.list []))]

/-- The payload loop of `handle_get_insights_request` over the cached
items. -/
def buildAllPayloads : List PyVal → Except String (List PyRecord)
  | [] => .ok []
  | item :: rest => do
    let p ← buildProductPayload item
    let ps ← buildAllPayloads rest
    Except.ok (p :: ps)

/-- Embedding of `handle_get_insights_request` (fetchinsights.py lines 121-262). The
cache query outcome, the ambient `deepseek_api_key` global, the API call
outcome and the JSON parser are the external collaborators. Returns the
result together with a flag recording whether the DeepSeek API call was
reached. Any exception escaping a step is caught by the outermost handler
and reported as `Failed to fetch insights: ...`. -/
def handle_get_insights_request (search_term : String)
    (cachedFetch : Except String (List PyVal)) (deepseek_api_key : PyVal)
    (api : DeepSeekApi) (parse : String → Except String PyVal) :
    InsightsResult × Bool :=
  match cachedFetch with
  | .error db_error => (.failure ("Failed to fetch cached results: " ++ db_error), false)
  | .ok cached_results =>
    if !cached_results.all PyVal.isDict then
      (.failure "Invalid data format in cached results. Expected a list of dictionaries.",
       false)
    else if cached_results.isEmpty then
      (.failure ("No cached results found for search term: " ++ search_term), false)
    else
      match buildAllPayloads cached_results with
      | .error e => (.failure ("Failed to fetch insights: " ++ e), false)
      | .ok _product_data =>
        if !pyTruthy deepseek_api_key then
          (.failure "DeepSeek API key is missing. Please configure it as an environment variable.",
           false)
        else if api.status ≠ 200 then
          (.failure ("DeepSeek API call failed with status " ++ toString api.status ++
            ": " ++ api.text), true)
        else
          match api.jsonBody with
          | .error e => (.failure ("Failed to fetch insights: " ++ e), true)
          | .ok respJson =>
            match store_deepseek_response parse respJson with
            | .error e => (.failure ("Failed to fetch insights: " ++ e), true)
            | .ok insights =>
              match validate_deepseek_response parse respJson with
              | .error e => (.failure ("Failed to fetch insights: " ++ e), true)
              | .ok _ => (.success insights, true)

/-! ## Lemmas about the normalizer -/

theorem normalizeProduct_lookup (now : String) (product : PyRecord) (f : String)
    (al : List String) (hmem : (f, al) ∈ field_mappings) :
    (normalizeProduct now product).lookup f =
      some (processValue now f ((lookupAlias product al).getD .none)) := by
  fin_cases hmem
  all_goals rfl

theorem default_values_not_none (now : String) (f : String) (hf : f ∈ canonicalFields) :
    (default_values now f).isNone = false := by
  fin_cases hf
  all_goals rfl

theorem isNumericField_cases (f : String) (h : isNumericField f = true) :
    f = "price" ∨ f = "mrp" ∨ f = "rating" := by
  simp only [isNumericField, Bool.or_eq_true, decide_eq_true_eq] at h
  tauto

theorem processValue_not_none (now : String) (f : String) (hf : f ∈ canonicalFields)
    (v0 : PyVal) : (processValue now f v0).isNone = false := by
  unfold processValue
  by_cases hnum : isNumericField f = true
  · simp only [hnum, if_true]
    cases hpf : pyFloat (if v0.isNone then default_values now f else v0) with
    | none =>
      rcases isNumericField_cases f hnum with rfl | rfl | rfl <;> rfl
    | some q => rfl
  · simp only [Bool.not_eq_true] at hnum
    simp only [hnum, Bool.false_eq_true, if_false]
    cases hv : v0.isNone with
    | true => simpa using default_values_not_none now f hf
    | false => simpa using hv

theorem processValue_number (now : String) (f : String) (hnum : isNumericField f = true)
    (v0 : PyVal) : (processValue now f v0).isNumber = true := by
  unfold processValue
  simp only [hnum, if_true]
  cases hpf : pyFloat (if v0.isNone then default_values now f else v0) with
  | none => rcases isNumericField_cases f hnum with rfl | rfl | rfl <;> rfl
  | some q => rfl

theorem processValue_of_none (now : String) (f : String) :
    processValue now f PyVal.none =
      (if isNumericField f = true then
        match pyFloat (default_values now f) with
        | some q => PyVal.float q
        | Option.none => default_values now f
       else default_values now f) := by
  unfold processValue
  by_cases hnum : isNumericField f = true <;> simp [hnum, PyVal.isNone]

theorem mem_normalize_response (now : String) (pd : PyVal) (r : PyRecord)
    (hr : r ∈ normalize_response now pd) :
    ∃ m : PyRecord, r = normalizeProduct now m := by
  unfold normalize_response at hr
  cases pd with
  | list xs =>
    rw [List.mem_filterMap] at hr
    obtain ⟨x, _, hx⟩ := hr
    cases x with
    | dict m =>
      refine ⟨m, ?_⟩
      simpa using hx.symm
    | none => simp at hx
    | bool b => simp at hx
    | int n => simp at hx
    | float q => simp at hx
    | dec q => simp at hx
    | str s => simp at hx
    | list ys => simp at hx
  | none => simp at hr
  | bool b => simp at hr
  | int n => simp at hr
  | float q => simp at hr
  | dec q => simp at hr
  | str s => simp at hr
  | dict m => simp at hr

/-- Claim C1: for every input list, every record produced by
`normalize_response` has all sixteen canonical fields present with a
non-`None` value; the numeric fields `price`, `mrp`, `rating` carry a
number; a field none of whose aliases is present gets its documented
default (which for the numeric fields means the float `0.0`); and a
present, non-`None` numeric value that fails `float` coercion is replaced
by the default `0`. `normalize_response` is a total function, so no
malformed input makes it raise. -/
theorem claim_C1 :
    (∀ (now : String) (pd : PyVal) (r : PyRecord), r ∈ normalize_response now pd →
      ∀ f ∈ canonicalFields, ∃ v, r.lookup f = some v ∧ v.isNone = false ∧
        (isNumericField f = true → v.isNumber = true)) ∧
    (∀ (now : String) (product : PyRecord) (f : String) (al : List String),
      (f, al) ∈ field_mappings → lookupAlias product al = Option.none →
      ∃ v, (normalizeProduct now product).lookup f = some v ∧
        (if isNumericField f = true then v = PyVal.float (mkRat 0 1)
         else v = default_values now f)) ∧
    (∀ (now : String) (product : PyRecord) (f : String) (al : List String) (v0 : PyVal),
      (f, al) ∈ field_mappings → isNumericField f = true →
      lookupAlias product al = some v0 → v0.isNone = false → pyFloat v0 = Option.none →
      (normalizeProduct now product).lookup f = some (PyVal.int 0)) := by
  refine ⟨?_, ?_, ?_⟩
  · intro now pd r hr f hf
    obtain ⟨m, rfl⟩ := mem_normalize_response now pd r hr
    have hal : ∃ al, (f, al) ∈ field_mappings := by
      simp only [canonicalFields, List.mem_map] at hf
      obtain ⟨e, he, hfe⟩ := hf
      exact ⟨e.2, by simpa [← hfe] using he⟩
    obtain ⟨al, hmem⟩ := hal
    refine ⟨processValue now f ((lookupAlias m al).getD .none),
      normalizeProduct_lookup now m f al hmem, processValue_not_none now f hf _,
      fun hnum => processValue_number now f hnum _⟩
  · intro now product f al hmem hal
    refine ⟨processValue now f PyVal.none, ?_, ?_⟩
    · simpa [hal] using normalizeProduct_lookup now product f al hmem
    · rw [processValue_of_none]
      by_cases hnum : isNumericField f = true
      · simp only [hnum, if_true]
        rcases isNumericField_cases f hnum with rfl | rfl | rfl <;> rfl
      · rw [if_neg hnum, if_neg hnum]
  · intro now product f al v0 hmem hnum hal hv0 hpf
    have h := normalizeProduct_lookup now product f al hmem
    rw [hal] at h
    rw [h]
    unfold processValue
    simp only [hal, hnum, if_true, Option.getD_some, hv0, Bool.false_eq_true, if_false, hpf]
    rcases isNumericField_cases f hnum with rfl | rfl | rfl <;> rfl

/-- Claim C1 witness: a malformed product presenting only a non-numeric
capitalized `Price` still normalizes to a fully populated record with a
numeric price. -/
theorem claim_C1_witness :
    ∃ v, (normalizeProduct "T0" [("Price", PyVal.str "abc")]).lookup "price" = some v ∧
      v.isNone = false ∧ (isNumericField "price" = true → v.isNumber = true) := by
  exact claim_C1.1 "T0" (.list [.dict [("Price", PyVal.str "abc")]])
    (normalizeProduct "T0" [("Price", PyVal.str "abc")])
    (List.mem_singleton_self _) "price" (by decide)

theorem lookupAlias_first_present (product : PyRecord) (ks1 ks2 : List String)
    (k : String) (v : PyVal)
    (habsent : ∀ k1 ∈ ks1, product.lookup k1 = Option.none)
    (hk : product.lookup k = some v) :
    lookupAlias product (ks1 ++ k :: ks2) = some v := by
  induction ks1 with
  | nil =>
    simp only [List.nil_append]
    unfold lookupAlias
    rw [hk]
  | cons a as ih =>
    have ha : product.lookup a = Option.none := habsent a (List.mem_cons_self _ _)
    simp only [List.cons_append]
    unfold lookupAlias
    rw [ha]
    exact ih (fun k1 h1 => habsent k1 (List.mem_cons_of_mem _ h1))

/-- Claim C2: for every canonical field and EVERY input mapping — any
insertion order, any other keys present — that presents both the
capitalized alias (the head of the field's priority list) and one of the
later (snake-case) aliases with different values, the alias scan
deterministically selects the capitalized alias's stored value, and the
normalized field is computed from that value alone — the snake-case
value is never consulted. -/
theorem claim_C2 (now f cap : String) (rest : List String) (snake : String)
    (product : PyRecord) (v w : PyVal)
    (hmem : (f, cap :: rest) ∈ field_mappings) (hsnake : snake ∈ rest)
    (hcap : product.lookup cap = some v) (hsn : product.lookup snake = some w)
    (hne : v ≠ w) :
    lookupAlias product (cap :: rest) = some v ∧
    (normalizeProduct now product).lookup f = some (processValue now f v) := by
  have hsel := lookupAlias_first_present product [] rest cap v
    (fun k1 h1 => absurd h1 (List.not_mem_nil k1)) hcap
  simp only [List.nil_append] at hsel
  refine ⟨hsel, ?_⟩
  have h := normalizeProduct_lookup now product f (cap :: rest) hmem
  rw [hsel] at h
  simpa using h

/-- Claim C2 witness: a mapping that stores `price: "9.9"` FIRST, then an
unrelated key, then `Price: "5.5"` — the snake-case alias earliest in
insertion order — still selects the capitalized `Price`, and the
normalized price is its coercion. -/
theorem claim_C2_witness :
    lookupAlias [("price", PyVal.str "9.9"), ("mrp", PyVal.str "7"),
        ("Price", PyVal.str "5.5")] ("Price" :: ["price"]) = some (PyVal.str "5.5") ∧
    (normalizeProduct "T0" [("price", PyVal.str "9.9"), ("mrp", PyVal.str "7"),
        ("Price", PyVal.str "5.5")]).lookup "price" =
      some (processValue "T0" "price" (PyVal.str "5.5")) := by
  exact claim_C2 "T0" "price" "Price" ["price"] "price"
    [("price", PyVal.str "9.9"), ("mrp", PyVal.str "7"), ("Price", PyVal.str "5.5")]
    (PyVal.str "5.5") (PyVal.str "9.9") (by decide) (by decide) rfl rfl (by simp)

/-- Claim C10: for EVERY input mapping — any insertion order, any other
keys — whose first alias present in the field's priority order (the
aliases before it all absent) holds `None`, the remaining aliases are
not consulted: the scan returns the stored `None`, not the non-null
value stored under a later (snake-case) alias, and the field's default
is substituted (for the numeric fields, the coerced default `0.0`). -/
theorem claim_C10 (now f : String) (ks1 ks2 : List String) (k snake : String)
    (product : PyRecord) (w : PyVal)
    (hmem : (f, ks1 ++ k :: ks2) ∈ field_mappings)
    (habsent : ∀ k1 ∈ ks1, product.lookup k1 = Option.none)
    (hk : product.lookup k = some PyVal.none)
    (hsnake : snake ∈ ks2) (hsn : product.lookup snake = some w)
    (hw : w.isNone = false) :
    lookupAlias product (ks1 ++ k :: ks2) = some PyVal.none ∧
    ∃ v, (normalizeProduct now product).lookup f = some v ∧
      (if isNumericField f = true then v = PyVal.float (mkRat 0 1)
       else v = default_values now f) := by
  have hsel : lookupAlias product (ks1 ++ k :: ks2) = some PyVal.none :=
    lookupAlias_first_present product ks1 ks2 k PyVal.none habsent hk
  refine ⟨hsel, processValue now f PyVal.none, ?_, ?_⟩
  · have h := normalizeProduct_lookup now product f (ks1 ++ k :: ks2) hmem
    rw [hsel] at h
    simpa using h
  · rw [processValue_of_none]
    by_cases hnum : isNumericField f = true
    · simp only [hnum, if_true]
      rcases isNumericField_cases f hnum with rfl | rfl | rfl <;> rfl
    · rw [if_neg hnum, if_neg hnum]

/-- Claim C10 witness: for `last_updated` (aliases `LastUpdated`,
`last_updated`, `Date`), a mapping storing `Date` first in insertion
order, a `None` under `last_updated`, and no `LastUpdated`: the first
alias present is the `None`-valued `last_updated`, the non-null `Date`
value is hidden, and the default timestamp is substituted. -/
theorem claim_C10_witness :
    lookupAlias [("Date", PyVal.str "2020-01-01"), ("last_updated", PyVal.none),
        ("asin", PyVal.str "B1")] (["LastUpdated"] ++ "last_updated" :: ["Date"]) =
      some PyVal.none ∧
    ∃ v, (normalizeProduct "T0" [("Date", PyVal.str "2020-01-01"),
        ("last_updated", PyVal.none), ("asin", PyVal.str "B1")]).lookup "last_updated" =
        some v ∧
      (if isNumericField "last_updated" = true then v = PyVal.float (mkRat 0 1)
       else v = default_values "T0" "last_updated") := by
  exact claim_C10 "T0" "last_updated" ["LastUpdated"] ["Date"] "last_updated" "Date"
    [("Date", PyVal.str "2020-01-01"), ("last_updated", PyVal.none),
     ("asin", PyVal.str "B1")] (PyVal.str "2020-01-01")
    (by decide)
    (by
      intro k1 h1
      simp only [List.mem_singleton] at h1
      subst h1
      rfl)
    rfl (by decide) rfl rfl

/-! ## Claims about the detail extractor, merge and insights handler -/

/-- Claim C9: `fetch_product_detail` returns a mapping whose `url` field
is exactly the requested URL, on the success branch and on the non-200
failure branch alike — the invariant that makes re-association of fan-out
results by URL well defined. -/
theorem claim_C9 (product_url : String) (status : Nat) (page : DetailPage) :
    (fetch_product_detail product_url status page).url = product_url := by
  unfold fetch_product_detail
  by_cases h : status = 200 <;> simp [h]

theorem find_matching_detail_of_pairwise {ds : List DetailResult} {p : ProductInfo}
    {d : DetailResult} (hmem : d ∈ ds) (hurl : d.url = p.detail_url)
    (hpw : ds.Pairwise (fun a b => a.url ≠ b.url)) :
    ds.find? (fun d2 => d2.url == p.detail_url) = some d := by
  induction ds with
  | nil => cases hmem
  | cons a rest ih =>
    rcases List.mem_cons.mp hmem with rfl | htail
    · simp [List.find?, hurl]
    · have hane : a.url ≠ d.url := (List.pairwise_cons.mp hpw).1 d htail
      have : (a.url == p.detail_url) = false := by
        rw [← hurl]
        exact beq_false_of_ne hane
      simp only [List.find?, this]
      exact ih htail (List.pairwise_cons.mp hpw).2

/-- Claim C4: the merge step yields exactly one merged record per listing
record — the list of merged records has the same length and its i-th
entry is the i-th listing record merged — where each listing record is
paired with the detail result whose `url` equals its `detail_url`
exactly (given the fan-out produced at most one result per URL), and a
record with no matching detail result gets the all-default stub, so the
merge is total. -/
theorem claim_C4 (ps : List ProductInfo) (ds : List DetailResult) :
    (mergeDetails ps ds).length = ps.length ∧
    (∀ i : Nat, (mergeDetails ps ds)[i]? = (ps[i]?).map (fun p => mergeOne p ds)) ∧
    (∀ p : ProductInfo, (∀ d ∈ ds, d.url ≠ p.detail_url) →
      mergeOne p ds =
        { p with
          about_this_item := .str "NA"
          review_text := .list []
          all_review_url := .str "NA"
          review_summary := .str "NA" }) ∧
    (∀ p d, d ∈ ds → d.url = p.detail_url →
      ds.Pairwise (fun a b => a.url ≠ b.url) →
      mergeOne p ds =
        { p with
          about_this_item := d.about_this_item
          review_text := d.review_text
          all_review_url := d.all_review_url
          review_summary := d.review_summary }) := by
  refine ⟨List.length_map _ _, fun i => List.getElem?_map .., ?_, ?_⟩
  · intro p hnone
    unfold mergeOne
    have : ds.find? (fun d2 => d2.url == p.detail_url) = Option.none := by
      rw [List.find?_eq_none]
      intro d hd
      simpa using hnone d hd
    rw [this]
  · intro p d hmem hurl hpw
    unfold mergeOne
    rw [find_matching_detail_of_pairwise hmem hurl hpw]

/-- Claim C4 witness: two listing records and one detail result (for the
first record's URL, the second simulating a failed fetch that produced no
result): both records survive, the first paired by exact URL match, the
second stubbed. -/
theorem claim_C4_witness :
    (mergeDetails
        [{ name := "A", detail_url := "https://www.amazon.in/a", price := mkRat 0 1
           mrp := mkRat 0 1, asin := "A1", rating := mkRat 0 1, bought_recently := "NA"
           sponsored := "No", badge := "None", highly_rated := "No"
           review_text := .list [], about_this_item := .str "Not Available"
           all_review_url := .str "Not Available", review_summary := .str "Not Available" },
         { name := "B", detail_url := "https://www.amazon.in/b", price := mkRat 0 1
           mrp := mkRat 0 1, asin := "B1", rating := mkRat 0 1, bought_recently := "NA"
           sponsored := "No", badge := "None", highly_rated := "No"
           review_text := .list [], about_this_item := .str "Not Available"
           all_review_url := .str "Not Available", review_summary := .str "Not Available" }]
        [{ url := "https://www.amazon.in/a", status := "Success"
           about_this_item := .str "About A", review_text := .list []
           all_review_url := .str "NA2", review_summary := .str "Good" }]).length = 2 ∧
    mergeOne
        { name := "B", detail_url := "https://www.amazon.in/b", price := mkRat 0 1
          mrp := mkRat 0 1, asin := "B1", rating := mkRat 0 1, bought_recently := "NA"
          sponsored := "No", badge := "None", highly_rated := "No"
          review_text := .list [], about_this_item := .str "Not Available"
          all_review_url := .str "Not Available", review_summary := .str "Not Available" }
        [{ url := "https://www.amazon.in/a", status := "Success"
           about_this_item := .str "About A", review_text := .list []
           all_review_url := .str "NA2", review_summary := .str "Good" }] =
      { name := "B", detail_url := "https://www.amazon.in/b", price := mkRat 0 1
        mrp := mkRat 0 1, asin := "B1", rating := mkRat 0 1, bought_recently := "NA"
        sponsored := "No", badge := "None", highly_rated := "No"
        review_text := .list [], about_this_item := .str "NA"
        all_review_url := .str "NA", review_summary := .str "NA" } ∧
    mergeOne
        { name := "A", detail_url := "https://www.amazon.in/a", price := mkRat 0 1
          mrp := mkRat 0 1, asin := "A1", rating := mkRat 0 1, bought_recently := "NA"
          sponsored := "No", badge := "None", highly_rated := "No"
          review_text := .list [], about_this_item := .str "Not Available"
          all_review_url := .str "Not Available", review_summary := .str "Not Available" }
        [{ url := "https://www.amazon.in/a", status := "Success"
           about_this_item := .str "About A", review_text := .list []
           all_review_url := .str "NA2", review_summary := .str "Good" }] =
      { name := "A", detail_url := "https://www.amazon.in/a", price := mkRat 0 1
        mrp := mkRat 0 1, asin := "A1", rating := mkRat 0 1, bought_recently := "NA"
        sponsored := "No", badge := "None", highly_rated := "No"
        review_text := .list [], about_this_item := .str "About A"
        all_review_url := .str "NA2", review_summary := .str "Good" } := by
  have h := claim_C4
    [{ name := "A", detail_url := "https://www.amazon.in/a", price := mkRat 0 1
       mrp := mkRat 0 1, asin := "A1", rating := mkRat 0 1, bought_recently := "NA"
       sponsored := "No", badge := "None", highly_rated := "No"
       review_text := .list [], about_this_item := .str "Not Available"
       all_review_url := .str "Not Available", review_summary := .str "Not Available" },
     { name := "B", detail_url := "https://www.amazon.in/b", price := mkRat 0 1
       mrp := mkRat 0 1, asin := "B1", rating := mkRat 0 1, bought_recently := "NA"
       sponsored := "No", badge := "None", highly_rated := "No"
       review_text := .list [], about_this_item := .str "Not Available"
       all_review_url := .str "Not Available", review_summary := .str "Not Available" }]
    [{ url := "https://www.amazon.in/a", status := "Success"
       about_this_item := .str "About A", review_text := .list []
       all_review_url := .str "NA2", review_summary := .str "Good" }]
  refine ⟨h.1, h.2.2.1 _ ?_, h.2.2.2 _ _ (List.mem_singleton_self _) rfl ?_⟩
  · intro d hd
    rw [List.mem_singleton.mp hd]
    simp
  · exact List.pairwise_singleton _ _

/-- Claim C8: for a search term with zero cached records, the insight
requester returns the reported error value naming the term, and the
DeepSeek summarizer call is never reached. -/
theorem claim_C8 (search_term : String) (deepseek_api_key : PyVal)
    (api : DeepSeekApi) (parse : String → Except String PyVal) :
    handle_get_insights_request search_term (.ok []) deepseek_api_key api parse =
      (.failure ("No cached results found for search term: " ++ search_term), false) := rfl

/-- Claim C5: when the cache query returns at least one record, the
fetch-or-cache handler answers 200 with exactly the cached records
(Decimal-converted and normalized) and performs no listing fetch, no
detail fan-out and no cache write — a hit short-circuits every remaining
step. -/
theorem claim_C5 (search_term : String) (w : FinderWorld)
    (hterm : search_term ≠ "") (hcache : w.cache ≠ []) :
    lambda_handler search_term w =
      (⟨200, .cachedHit (normalize_response w.now
          (.list ((w.cache.map decConvertRecord).map PyVal.dict)))⟩,
       ⟨false, [], []⟩) := by
  unfold lambda_handler
  rw [if_neg hterm]
  have hni : w.cache.isEmpty = false := by
    cases h : w.cache with
    | nil => exact absurd h hcache
    | cons a as => rfl
  simp [hni]

/-- Claim C5 witness: a term cached with one record is answered from the
cache with no extractor call and no write. -/
theorem claim_C5_witness :
    lambda_handler "wood coasters"
      { cache := [[("ASIN", PyVal.str "B001"), ("SearchTerm", PyVal.str "wood coasters"),
          ("Price", PyVal.dec (mkRat 5 1))]]
        listingStatus := 200
        listingNodes := []
        net := fun _ => .error "unreachable"
        now := "2024-01-02 00:00:00" } =
      (⟨200, .cachedHit (normalize_response "2024-01-02 00:00:00"
          (.list (([[("ASIN", PyVal.str "B001"), ("SearchTerm", PyVal.str "wood coasters"),
            ("Price", PyVal.dec (mkRat 5 1))]].map decConvertRecord).map PyVal.dict)))⟩,
       ⟨false, [], []⟩) := by
  exact claim_C5 "wood coasters"
    { cache := [[("ASIN", PyVal.str "B001"), ("SearchTerm", PyVal.str "wood coasters"),
        ("Price", PyVal.dec (mkRat 5 1))]]
      listingStatus := 200
      listingNodes := []
      net := fun _ => .error "unreachable"
      now := "2024-01-02 00:00:00" }
    (by decide) (by simp)

/-! ## Lemmas about the listing extractor -/

theorem amazonPrefix_ne_NA (hr : String) : ("https://www.amazon.in" ++ hr) ≠ "NA" := by
  intro hEq
  have hlen := congrArg String.length hEq
  rw [String.length_append] at hlen
  have h21 : ("https://www.amazon.in").length = 21 := rfl
  have h2 : ("NA").length = 2 := rfl
  rw [h21, h2] at hlen
  omega

theorem processListingNode_ok_some (node : ListingNode) (p : ProductInfo)
    (h : processListingNode node = .ok (some p)) :
    p.name ≠ "Unknown" ∧ p.detail_url ≠ "NA" := by
  by_cases hname : node.nameTag.getD "Unknown" = "Unknown"
  · unfold processListingNode at h
    rw [if_pos hname] at h
    simp at h
  · cases hhref : node.href with
    | none =>
      unfold processListingNode at h
      rw [if_neg hname] at h
      simp only [hhref] at h
      simp at h
    | some hr =>
      unfold processListingNode at h
      rw [if_neg hname] at h
      simp only [hhref] at h
      rw [if_neg (amazonPrefix_ne_NA hr)] at h
      simp only [bind, Except.bind] at h
      repeat' split at h
      all_goals
        first
        | (simp only [Except.ok.injEq, Option.some.injEq] at h
           subst h
           exact ⟨hname, amazonPrefix_ne_NA hr⟩)
        | cases h
        | simp at h

theorem processListingNode_skip (node : ListingNode)
    (hskip : node.nameTag = Option.none ∨ node.href = Option.none) :
    processListingNode node = .ok Option.none := by
  rcases hskip with hn | hh
  · unfold processListingNode
    rw [hn]
    rfl
  · by_cases hname : node.nameTag.getD "Unknown" = "Unknown"
    · unfold processListingNode
      rw [if_pos hname]
    · unfold processListingNode
      rw [if_neg hname, hh]
      rfl

theorem listingLoop_length (nodes : List ListingNode) :
    ∀ (count : Nat) (l : List ProductInfo), count < 5 →
      listingLoop nodes count = .ok l → l.length + count ≤ 5 := by
  induction nodes with
  | nil =>
    intro count l hc hl
    obtain rfl : [] = l := by simpa [listingLoop] using hl
    simpa using Nat.le_of_lt hc
  | cons node rest ih =>
    intro count l hc hl
    unfold listingLoop at hl
    split at hl
    · cases hl
    · exact ih count l hc hl
    · rename_i p hpn
      by_cases h5 : count + 1 ≥ 5
      · rw [if_pos h5] at hl
        obtain rfl : [p] = l := by simpa using hl
        simp only [List.length_singleton]
        omega
      · rw [if_neg h5] at hl
        simp only [bind, Except.bind] at hl
        cases hrec : listingLoop rest (count + 1) with
        | error e => rw [hrec] at hl; cases hl
        | ok tl =>
          rw [hrec] at hl
          obtain rfl : p :: tl = l := by simpa using hl
          have htl := ih (count + 1) tl (by omega) hrec
          simp only [List.length_cons]
          omega

theorem listingLoop_mem (nodes : List ListingNode) :
    ∀ (count : Nat) (l : List ProductInfo) (p : ProductInfo),
      listingLoop nodes count = .ok l → p ∈ l →
      p.name ≠ "Unknown" ∧ p.detail_url ≠ "NA" := by
  induction nodes with
  | nil =>
    intro count l p hl hp
    obtain rfl : [] = l := by simpa [listingLoop] using hl
    cases hp
  | cons node rest ih =>
    intro count l p hl hp
    unfold listingLoop at hl
    split at hl
    · cases hl
    · exact ih count l p hl hp
    · rename_i q hpn
      by_cases h5 : count + 1 ≥ 5
      · rw [if_pos h5] at hl
        obtain rfl : [q] = l := by simpa using hl
        rw [List.mem_singleton.mp hp]
        exact processListingNode_ok_some node q hpn
      · rw [if_neg h5] at hl
        simp only [bind, Except.bind] at hl
        cases hrec : listingLoop rest (count + 1) with
        | error e => rw [hrec] at hl; cases hl
        | ok tl =>
          rw [hrec] at hl
          obtain rfl : q :: tl = l := by simpa using hl
          rcases List.mem_cons.mp hp with rfl | htl
          · exact processListingNode_ok_some node p hpn
          · exact ih (count + 1) tl p hrec htl

/-- Claim C6: the listing extractor never returns more than 5 entries;
every returned entry has a non-sentinel name (not `"Unknown"`) and a
non-sentinel detail URL (not `"NA"`); and a result node with no
resolvable name or no resolvable detail link is skipped without affecting
the rest of the scan. -/
theorem claim_C6 (search_term : String) (status : Nat) (nodes : List ListingNode)
    (l : List ProductInfo)
    (hok : fetch_product_list search_term status nodes = .ok (.products l)) :
    l.length ≤ 5 ∧
    (∀ p ∈ l, p.name ≠ "Unknown" ∧ p.detail_url ≠ "NA") ∧
    (∀ (node : ListingNode) (rest : List ListingNode) (count : Nat),
      node.nameTag = Option.none ∨ node.href = Option.none →
      listingLoop (node :: rest) count = listingLoop rest count) := by
  have hloop : listingLoop nodes 0 = .ok l := by
    unfold fetch_product_list at hok
    by_cases hst : status = 200
    · simp only [hst, ne_eq, not_true_eq_false, if_false, bind, Except.bind] at hok
      split at hok
      · cases hok
      · rename_i ps hrec
        obtain rfl : ps = l := by simpa using hok
        exact hrec
    · rw [if_pos hst] at hok
      simp at hok
  refine ⟨by simpa using listingLoop_length nodes 0 l (by omega) hloop,
    fun p hp => listingLoop_mem nodes 0 l p hloop hp,
    fun node rest count hskip => ?_⟩
  have hs := processListingNode_skip node hskip
  rw [listingLoop, hs]


/-- Claim C6 witness: a single complete result node yields one entry with
real name and URL, within the cap of five. -/
theorem claim_C6_witness :
    ([({ name := "Wood Coaster"
         detail_url := "https://www.amazon.in/dp/B001"
         price := mkRat 0 1
         mrp := mkRat 0 1
         asin := "B001"
         rating := mkRat 0 1
         bought_recently := "NA"
         sponsored := "No"
         badge := "None"
         highly_rated := "No"
         review_text := .list []
         about_this_item := .str "Not Available"
         all_review_url := .str "Not Available"
         review_summary := .str "Not Available" } : ProductInfo)]).length ≤ 5 ∧
    (∀ p ∈ [({ name := "Wood Coaster"
               detail_url := "https://www.amazon.in/dp/B001"
               price := mkRat 0 1
               mrp := mkRat 0 1
               asin := "B001"
               rating := mkRat 0 1
               bought_recently := "NA"
               sponsored := "No"
               badge := "None"
               highly_rated := "No"
               review_text := .list []
               about_this_item := .str "Not Available"
               all_review_url := .str "Not Available"
               review_summary := .str "Not Available" } : ProductInfo)],
      p.name ≠ "Unknown" ∧ p.detail_url ≠ "NA") ∧
    (∀ (node : ListingNode) (rest : List ListingNode) (count : Nat),
      node.nameTag = Option.none ∨ node.href = Option.none →
      listingLoop (node :: rest) count = listingLoop rest count) := by
  exact claim_C6 "wood coasters" 200
    [{ nameTag := some "Wood Coaster"
       sponsoredText := Option.none
       href := some "/dp/B001"
       dataAsin := some "B001"
       priceText := Option.none
       mrpText := Option.none
       ratingText := Option.none
       boughtText := Option.none
       badgeText := Option.none
       inHighlyRated := false }] _ rfl

/-! ## Lemmas about the persist step -/

theorem lookup_cons_eq (k : String) (v : PyVal) (rest : PyRecord) :
    List.lookup k ((k, v) :: rest) = some v := by
  simp [List.lookup]

theorem lookup_cons_ne (k : String) (kv : String × PyVal) (rest : PyRecord)
    (hne : (k == kv.1) = false) : List.lookup k (kv :: rest) = List.lookup k rest := by
  cases kv
  simp only [List.lookup]
  rw [hne]

theorem lookup_cons_ne2 (k k1 : String) (v1 : PyVal) (rest : PyRecord)
    (hne : (k == k1) = false) : List.lookup k ((k1, v1) :: rest) = List.lookup k rest :=
  lookup_cons_ne k (k1, v1) rest hne

theorem lookup_mapSet (m : PyRecord) (k : String) (v : PyVal)
    (h : (m.lookup k).isSome = true) :
    (m.map (fun kv => if kv.1 = k then (k, v) else kv)).lookup k = some v := by
  induction m with
  | nil => simp at h
  | cons kv rest ih =>
    by_cases hk : kv.1 = k
    · rw [List.map_cons, if_pos hk]
      exact lookup_cons_eq k v _
    · have hne : (k == kv.1) = false := beq_false_of_ne (fun he => hk he.symm)
      rw [List.map_cons, if_neg hk, lookup_cons_ne k kv _ hne]
      rw [lookup_cons_ne k kv rest hne] at h
      exact ih h

theorem lookup_mapSet_other (m : PyRecord) (k : String) (v : PyVal) (k2 : String)
    (hne : k2 ≠ k) :
    (m.map (fun kv => if kv.1 = k then (k, v) else kv)).lookup k2 = m.lookup k2 := by
  induction m with
  | nil => rfl
  | cons kv rest ih =>
    by_cases hk : kv.1 = k
    · have h2 : (k2 == kv.1) = false := by
        rw [hk]
        exact beq_false_of_ne hne
      have h2' : (k2 == k) = false := beq_false_of_ne hne
      rw [List.map_cons, if_pos hk, lookup_cons_ne k2 (k, v) _ h2',
        lookup_cons_ne k2 kv rest h2]
      exact ih
    · rw [List.map_cons, if_neg hk]
      cases hc : (k2 == kv.1)
      · rw [lookup_cons_ne k2 kv _ hc, lookup_cons_ne k2 kv rest hc]
        exact ih
      · obtain ⟨k1, v1⟩ := kv
        have : k2 = k1 := by simpa using hc
        subst this
        rw [lookup_cons_eq, lookup_cons_eq]

theorem lookup_append_last (m : PyRecord) (k : String) (v : PyVal)
    (h : m.lookup k = Option.none) : (m ++ [(k, v)]).lookup k = some v := by
  induction m with
  | nil => exact lookup_cons_eq k v []
  | cons kv rest ih =>
    have hne : (k == kv.1) = false := by
      cases hc : (k == kv.1)
      · rfl
      · exfalso
        obtain ⟨k1, v1⟩ := kv
        have : k = k1 := by simpa using hc
        subst this
        rw [lookup_cons_eq] at h
        cases h
    rw [List.cons_append, lookup_cons_ne k kv _ hne]
    rw [lookup_cons_ne k kv rest hne] at h
    exact ih h

theorem lookup_append_last_other (m : PyRecord) (k : String) (v : PyVal) (k2 : String)
    (hne : k2 ≠ k) : (m ++ [(k, v)]).lookup k2 = m.lookup k2 := by
  induction m with
  | nil =>
    simp only [List.nil_append]
    rw [lookup_cons_ne k2 (k, v) [] (beq_false_of_ne hne)]
  | cons kv rest ih =>
    rw [List.cons_append]
    cases hc : (k2 == kv.1)
    · rw [lookup_cons_ne k2 kv _ hc, lookup_cons_ne k2 kv rest hc]
      exact ih
    · obtain ⟨k1, v1⟩ := kv
      have : k2 = k1 := by simpa using hc
      subst this
      rw [lookup_cons_eq, lookup_cons_eq]

theorem lookup_setKey_self (m : PyRecord) (k : String) (v : PyVal) :
    (setKey m k v).lookup k = some v := by
  unfold setKey
  by_cases h : (m.lookup k).isSome = true
  · rw [if_pos h]
    exact lookup_mapSet m k v h
  · rw [if_neg h]
    exact lookup_append_last m k v (Option.not_isSome_iff_eq_none.mp h)

theorem lookup_setKey_other (m : PyRecord) (k : String) (v : PyVal) (k2 : String)
    (hne : k2 ≠ k) : (setKey m k v).lookup k2 = m.lookup k2 := by
  unfold setKey
  by_cases h : (m.lookup k).isSome = true
  · rw [if_pos h]
    exact lookup_mapSet_other m k v k2 hne
  · rw [if_neg h]
    exact lookup_append_last_other m k v k2 hne

theorem storeMutate_lookup_SearchTerm (p : PyRecord) (term now : String) :
    (storeMutate term now p).lookup "SearchTerm" = some (.str term) := by
  unfold storeMutate
  rw [lookup_setKey_other _ _ _ _ (by decide)]
  exact lookup_setKey_self p "SearchTerm" (.str term)

/-- The persist guards of `store_to_dynamodb` combined (source lines
349-355): a record is put iff its `asin` is truthy and not `"NA"` and its
(just assigned) `SearchTerm` is truthy. -/
def storeKeep (p1 : PyRecord) : Bool :=
  let asin := (p1.lookup "asin").getD .none
  (pyTruthy asin && !asinIsNA asin) && pyTruthy ((p1.lookup "SearchTerm").getD .none)

theorem pvIndexE_eq_ok (m : PyRecord) (k : String) (v : PyVal) :
    ((match m.lookup k with
      | some w => Except.ok w
      | Option.none => Except.error ("KeyError: " ++ k)) =
        (Except.ok v : Except String PyVal)) ↔ m.lookup k = some v := by
  cases h : m.lookup k <;> simp

theorem mkDynamoItem_keys (p1 item : PyRecord) (h : mkDynamoItem p1 = .ok item) :
    item.lookup "ASIN" = p1.lookup "asin" ∧
    item.lookup "SearchTerm" = p1.lookup "SearchTerm" := by
  unfold mkDynamoItem at h
  simp only [bind, Except.bind, pvIndexE] at h
  repeat' split at h
  all_goals (first | (exact absurd h (fun hh => Except.noConfusion hh)) | skip)
  injection h with h2
  subst h2
  simp only [pvIndexE_eq_ok] at *
  refine ⟨?_, ?_⟩
  · rw [lookup_cons_eq]
    symm
    assumption
  · rw [lookup_cons_ne2 "SearchTerm" "ASIN" _ _ rfl, lookup_cons_eq]
    symm
    assumption

theorem storeKeep_false_of_guard1 (p1 : PyRecord)
    (hg1 : (!pyTruthy ((p1.lookup "asin").getD .none) ||
      asinIsNA ((p1.lookup "asin").getD .none)) = true) :
    storeKeep p1 = false := by
  unfold storeKeep
  cases hb : pyTruthy ((p1.lookup "asin").getD .none) <;>
    cases hc : asinIsNA ((p1.lookup "asin").getD .none) <;> simp_all

theorem storeKeep_false_of_guard2 (p1 : PyRecord)
    (hg2 : (!pyTruthy ((p1.lookup "SearchTerm").getD .none)) = true) :
    storeKeep p1 = false := by
  unfold storeKeep
  simp_all

theorem storeKeep_true_of_guards (p1 : PyRecord)
    (hg1 : ¬(!pyTruthy ((p1.lookup "asin").getD .none) ||
      asinIsNA ((p1.lookup "asin").getD .none)) = true)
    (hg2 : ¬(!pyTruthy ((p1.lookup "SearchTerm").getD .none)) = true) :
    storeKeep p1 = true := by
  unfold storeKeep
  cases hb : pyTruthy ((p1.lookup "asin").getD .none) <;>
    cases hc : asinIsNA ((p1.lookup "asin").getD .none) <;>
    cases hd : pyTruthy ((p1.lookup "SearchTerm").getD .none) <;> simp_all

/-- Claim C3, amended: in the persist step every record whose `asin` is
truthy (in particular non-empty) and not the literal sentinel `"NA"`,
and whose assigned `SearchTerm` is truthy, is written to the cache keyed
by `(asin, search_term)`; a record failing any of these guards — which
includes records with the non-empty asin `"NA"` — is skipped from
persistence; and all records, written or skipped, are returned (with
`SearchTerm` and `Date` set) for this call. -/
theorem claim_C3 (ps : List PyRecord) (search_term now : String)
    (ws rs : List PyRecord)
    (hok : store_to_dynamodb ps search_term now = .ok (ws, rs)) :
    rs = ps.map (storeMutate search_term now) ∧
    ws = rs.filterMap (fun p1 =>
      if storeKeep p1 then (mkDynamoItem p1).toOption else Option.none) ∧
    (∀ p1 ∈ rs, storeKeep p1 = true → ∃ item ∈ ws,
      mkDynamoItem p1 = .ok item ∧
      item.lookup "ASIN" = p1.lookup "asin" ∧
      item.lookup "SearchTerm" = some (.str search_term)) := by
  induction ps generalizing ws rs with
  | nil =>
    injection hok with hpair
    injection hpair with hw hr
    subst hw
    subst hr
    exact ⟨rfl, rfl, by simp⟩
  | cons p rest ih =>
    simp only [store_to_dynamodb, bind, Except.bind] at hok
    split at hok
    · -- asin guard skipped the record
      rename_i hg1
      cases hrec : store_to_dynamodb rest search_term now with
      | error e => rw [hrec] at hok; cases hok
      | ok a =>
        obtain ⟨ws', ps'⟩ := a
        rw [hrec] at hok
        injection hok with hpair
        injection hpair with hw hr
        subst hw
        subst hr
        obtain ⟨h1, h2, h3⟩ := ih ws' ps' hrec
        have hkeep : storeKeep (storeMutate search_term now p) = false :=
          storeKeep_false_of_guard1 _ hg1
        refine ⟨by rw [List.map_cons, h1], ?_, ?_⟩
        · rw [List.filterMap_cons, hkeep]
          simpa using h2
        · intro p1 hp1 hk
          rcases List.mem_cons.mp hp1 with rfl | htl
          · rw [hkeep] at hk
            cases hk
          · exact h3 p1 htl hk
    · -- asin guard passed
      rename_i hg1
      split at hok
      · -- SearchTerm guard skipped the record
        rename_i hg2
        cases hrec : store_to_dynamodb rest search_term now with
        | error e => rw [hrec] at hok; cases hok
        | ok a =>
          obtain ⟨ws', ps'⟩ := a
          rw [hrec] at hok
          injection hok with hpair
          injection hpair with hw hr
          subst hw
          subst hr
          obtain ⟨h1, h2, h3⟩ := ih ws' ps' hrec
          have hkeep : storeKeep (storeMutate search_term now p) = false :=
            storeKeep_false_of_guard2 _ hg2
          refine ⟨by rw [List.map_cons, h1], ?_, ?_⟩
          · rw [List.filterMap_cons, hkeep]
            simpa using h2
          · intro p1 hp1 hk
            rcases List.mem_cons.mp hp1 with rfl | htl
            · rw [hkeep] at hk
              cases hk
            · exact h3 p1 htl hk
      · -- both guards passed: the record is written
        rename_i hg2
        cases hitem : mkDynamoItem (storeMutate search_term now p) with
        | error e => rw [hitem] at hok; cases hok
        | ok item =>
          rw [hitem] at hok
          cases hrec : store_to_dynamodb rest search_term now with
          | error e => rw [hrec] at hok; cases hok
          | ok a =>
            obtain ⟨ws', ps'⟩ := a
            rw [hrec] at hok
            injection hok with hpair
            injection hpair with hw hr
            subst hw
            subst hr
            obtain ⟨h1, h2, h3⟩ := ih ws' ps' hrec
            have hkeep : storeKeep (storeMutate search_term now p) = true :=
              storeKeep_true_of_guards _ hg1 hg2
            refine ⟨by rw [List.map_cons, h1], ?_, ?_⟩
            · rw [List.filterMap_cons, hkeep]
              simp only [if_true, hitem, Except.toOption]
              rw [h2]
              rfl
            · intro p1 hp1 hk
              rcases List.mem_cons.mp hp1 with rfl | htl
              · refine ⟨item, List.mem_cons_self _ _, hitem,
                  (mkDynamoItem_keys _ _ hitem).1,
                  (mkDynamoItem_keys _ _ hitem).2.trans
                    (storeMutate_lookup_SearchTerm p search_term now)⟩
              · obtain ⟨item', hmem', hrest⟩ := h3 p1 htl hk
                exact ⟨item', List.mem_cons_of_mem _ hmem', hrest⟩

/-- Claim C3 counterexample: a normalized record whose `asin` is the
non-empty string `"NA"` is NOT written in the persist step (no put is
attempted), although the claim as stated — every record possessing a
non-empty `asin` is written — requires it to be; the search term is
non-empty, so no other guard explains the skip. -/
theorem claim_C3_counterexample :
    ∃ out, store_to_dynamodb [normalizeProduct "T0" [("asin", PyVal.str "NA")]]
        "wood coasters" "T1" = .ok out ∧
      out.1 = [] ∧
      (normalizeProduct "T0" [("asin", PyVal.str "NA")]).lookup "asin" =
        some (PyVal.str "NA") ∧
      ("NA" : String) ≠ "" ∧ ("wood coasters" : String) ≠ "" := by
  exact ⟨_, rfl, rfl, rfl, by decide, by decide⟩

/-- Claim C3 witness (for the amended claim): a normalized record with a
genuine asin is written, keyed by the asin and the search term, and is
also returned mutated. -/
theorem claim_C3_witness :
    ∃ ws rs, store_to_dynamodb [normalizeProduct "T0" [("asin", PyVal.str "B001")]]
        "wood coasters" "T1" = .ok (ws, rs) ∧
      (rs = [normalizeProduct "T0" [("asin", PyVal.str "B001")]].map
          (storeMutate "wood coasters" "T1") ∧
       ws = rs.filterMap (fun p1 =>
         if storeKeep p1 then (mkDynamoItem p1).toOption else Option.none) ∧
       (∀ p1 ∈ rs, storeKeep p1 = true → ∃ item ∈ ws,
          mkDynamoItem p1 = .ok item ∧
          item.lookup "ASIN" = p1.lookup "asin" ∧
          item.lookup "SearchTerm" = some (.str "wood coasters"))) := by
  exact ⟨_, _, rfl, claim_C3 _ "wood coasters" "T1" _ _ rfl⟩

/-! ## Lemmas about the DeepSeek response validation -/

theorem any_eq_lookup_isSome (m : PyRecord) (k : String) :
    m.any (fun kv => kv.1 == k) = (m.lookup k).isSome := by
  induction m with
  | nil => rfl
  | cons kv rest ih =>
    by_cases he : kv.1 = k
    · subst he
      rw [lookup_cons_eq kv.1 kv.2 rest]
      simp [List.any_cons]
    · have h1 : (kv.1 == k) = false := beq_false_of_ne he
      have h2 : (k == kv.1) = false := beq_false_of_ne (fun x => he x.symm)
      rw [lookup_cons_ne _ _ _ h2]
      simp [List.any_cons, h1, ih]

theorem checkRequiredKeys_dict_ok (m : PyRecord) (ks : List String)
    (h : ∀ k ∈ ks, (m.lookup k).isSome = true) :
    checkRequiredKeys (.dict m) ks = .ok () := by
  induction ks with
  | nil => rfl
  | cons k ks ih =>
    have hk : m.any (fun kv => kv.1 == k) = true := by
      rw [any_eq_lookup_isSome]
      exact h k (List.mem_cons_self _ _)
    unfold checkRequiredKeys
    simp only [pyContainsKey, hk]
    exact ih (fun k2 hk2 => h k2 (List.mem_cons_of_mem _ hk2))

theorem checkRequiredKeys_dict_missing (m : PyRecord) (ks : List String) (k : String)
    (hfind : ks.find? (fun k2 => !(m.lookup k2).isSome) = some k) :
    checkRequiredKeys (.dict m) ks =
      .error (.other ("Missing required field: " ++ k)) := by
  induction ks with
  | nil => cases hfind
  | cons k0 ks ih =>
    cases hp : (!(m.lookup k0).isSome) with
    | false =>
      rw [List.find?_cons, hp] at hfind
      have hk0 : m.any (fun kv => kv.1 == k0) = true := by
        rw [any_eq_lookup_isSome]
        simpa using hp
      unfold checkRequiredKeys
      simp only [pyContainsKey, hk0]
      exact ih hfind
    | true =>
      rw [List.find?_cons, hp] at hfind
      have hk' : k0 = k := by injection hfind
      have hk0 : m.any (fun kv => kv.1 == k0) = false := by
        rw [any_eq_lookup_isSome]
        simpa using hp
      unfold checkRequiredKeys
      simp only [pyContainsKey, hk0]
      rw [hk']

theorem checkRequiredKeys_ok_contains (insights : PyVal) (ks : List String)
    (h : checkRequiredKeys insights ks = .ok ()) :
    ∀ k ∈ ks, pyContainsKey k insights = .ok true := by
  induction ks with
  | nil => intro k hk; cases hk
  | cons k0 ks ih =>
    have hhead : pyContainsKey k0 insights = .ok true := by
      unfold checkRequiredKeys at h
      cases hc : pyContainsKey k0 insights with
      | error e => rw [hc] at h; cases h
      | ok b =>
        cases b with
        | false => rw [hc] at h; cases h
        | true => rfl
    intro k hk
    rcases List.mem_cons.mp hk with rfl | htl
    · exact hhead
    · unfold checkRequiredKeys at h
      rw [hhead] at h
      exact ih h k htl

theorem pyIndexStr_dict_eq_ok (m : PyRecord) (k : String) (v : PyVal) :
    ((match m.lookup k with
      | some w => Except.ok w
      | Option.none => Except.error (VErr.other ("KeyError: " ++ k))) =
        (Except.ok v : Except VErr PyVal)) ↔ m.lookup k = some v := by
  cases h : m.lookup k <;> simp

theorem checkNestedDicts_ok (insights : PyVal)
    (h : checkNestedDicts insights = .ok true) :
    ∃ m : PyRecord, insights = .dict m ∧
      (∃ g, m.lookup "identified_gaps" = some (.dict g)) ∧
      (∃ g, m.lookup "messaging_positioning" = some (.dict g)) ∧
      (∃ g, m.lookup "opportunity_size" = some (.dict g)) := by
  cases insights with
  | dict m =>
    refine ⟨m, rfl, ?_⟩
    unfold checkNestedDicts at h
    simp only [bind, Except.bind, pyIndexStr] at h
    repeat' split at h
    all_goals (try (exact absurd h (fun hh => Except.noConfusion hh)))
    rename_i x1 v1 he1 hn1 x2 v2 he2 hn2 x3 v3 he3 hn3
    have hv1 : m.lookup "identified_gaps" = some v1 := (pyIndexStr_dict_eq_ok m _ v1).mp he1
    have hv2 : m.lookup "messaging_positioning" = some v2 :=
      (pyIndexStr_dict_eq_ok m _ v2).mp he2
    have hv3 : m.lookup "opportunity_size" = some v3 := (pyIndexStr_dict_eq_ok m _ v3).mp he3
    have hd1 : v1.isDict = true := by simpa using hn1
    have hd2 : v2.isDict = true := by simpa using hn2
    have hd3 : v3.isDict = true := by simpa using hn3
    obtain ⟨g1, rfl⟩ : ∃ g, v1 = PyVal.dict g := by
      cases v1 <;> first | exact ⟨_, rfl⟩ | simp [PyVal.isDict] at hd1
    obtain ⟨g2, rfl⟩ : ∃ g, v2 = PyVal.dict g := by
      cases v2 <;> first | exact ⟨_, rfl⟩ | simp [PyVal.isDict] at hd2
    obtain ⟨g3, rfl⟩ : ∃ g, v3 = PyVal.dict g := by
      cases v3 <;> first | exact ⟨_, rfl⟩ | simp [PyVal.isDict] at hd3
    exact ⟨⟨g1, hv1⟩, ⟨g2, hv2⟩, ⟨g3, hv3⟩⟩
  | none => cases h
  | bool b => cases h
  | int n => cases h
  | float q => cases h
  | dec q => cases h
  | str s => cases h
  | list xs => cases h

/-- Claim C7: the insight requester reports success only when the
summarizer reply parses, contains all five required top-level keys, and
the three nested values are mappings; the first missing key is reported
in a validation error naming it; a wrong nested type is reported naming
the offending field; a malformed JSON body is reported as a validation
error; and `handle_get_insights_request` surfaces the validation error to
the caller instead of silently repairing the reply. -/
theorem claim_C7 (parse : String → Except String PyVal) (response : PyVal) :
    (validate_deepseek_response parse response = .ok true →
      ∃ m : PyRecord, extractInsights parse response = .ok (.dict m) ∧
        (∀ k ∈ requiredKeys, (m.lookup k).isSome = true) ∧
        (∃ g, m.lookup "identified_gaps" = some (.dict g)) ∧
        (∃ g, m.lookup "messaging_positioning" = some (.dict g)) ∧
        (∃ g, m.lookup "opportunity_size" = some (.dict g))) ∧
    (∀ m : PyRecord, extractInsights parse response = .ok (.dict m) →
      ∀ k, requiredKeys.find? (fun k2 => !(m.lookup k2).isSome) = some k →
      validate_deepseek_response parse response =
        .error ("Error validating DeepSeek response: " ++
          ("Missing required field: " ++ k))) ∧
    (∀ m : PyRecord, extractInsights parse response = .ok (.dict m) →
      (∀ k ∈ requiredKeys, (m.lookup k).isSome = true) →
      (∀ g, m.lookup "identified_gaps" = some g → g.isDict = false →
        validate_deepseek_response parse response =
          .error ("Error validating DeepSeek response: " ++
            "Invalid format for 'identified_gaps'.")) ∧
      (∀ g p2, m.lookup "identified_gaps" = some (.dict g) →
        m.lookup "messaging_positioning" = some p2 → p2.isDict = false →
        validate_deepseek_response parse response =
          .error ("Error validating DeepSeek response: " ++
            "Invalid format for 'messaging_positioning'.")) ∧
      (∀ g p2 o, m.lookup "identified_gaps" = some (.dict g) →
        m.lookup "messaging_positioning" = some (.dict p2) →
        m.lookup "opportunity_size" = some o → o.isDict = false →
        validate_deepseek_response parse response =
          .error ("Error validating DeepSeek response: " ++
            "Invalid format for 'opportunity_size'."))) ∧
    (∀ content : String, content ≠ "" →
      response = .dict [("choices", .list [.dict [("message",
        .dict [("content", .str content)])]])] →
      ∀ e, parse content = .error e →
      validate_deepseek_response parse response =
        .error "Invalid JSON structure in 'content'.") ∧
    (∀ (search_term : String) (cached : List PyVal) (deepseek_api_key : PyVal)
        (api : DeepSeekApi) (msg : String) (insights : PyVal),
      cached.all PyVal.isDict = true → cached ≠ [] →
      (buildAllPayloads cached).isOk = true →
      pyTruthy deepseek_api_key = true → api.status = 200 →
      api.jsonBody = .ok response →
      store_deepseek_response parse response = .ok insights →
      validate_deepseek_response parse response = .error msg →
      handle_get_insights_request search_term (.ok cached) deepseek_api_key api parse =
        (.failure ("Failed to fetch insights: " ++ msg), true)) := by
  refine ⟨?_, ?_, ?_, ?_, ?_⟩
  · -- success direction
    intro h
    unfold validate_deepseek_response at h
    simp only [bind, Except.bind] at h
    split at h
    · rename_i b heqrun
      injection h with hb
      subst hb
      split at heqrun
      · exact absurd heqrun (fun hh => Except.noConfusion hh)
      · rename_i insights he
        split at heqrun
        · exact absurd heqrun (fun hh => Except.noConfusion hh)
        · rename_i u hr
          cases u
          obtain ⟨m, rfl, hg1, hg2, hg3⟩ := checkNestedDicts_ok insights heqrun
          refine ⟨m, he, ?_, hg1, hg2, hg3⟩
          intro k hk
          have hc := checkRequiredKeys_ok_contains _ _ hr k hk
          unfold pyContainsKey at hc
          injection hc with hc2
          rw [← any_eq_lookup_isSome]
          exact hc2
    · cases h
    · cases h
  · -- first missing key named
    intro m hm k hfind
    unfold validate_deepseek_response
    simp only [bind, Except.bind, hm]
    rw [checkRequiredKeys_dict_missing m requiredKeys k hfind]
  · -- wrong nested type named
    intro m hm hall
    have hreq : checkRequiredKeys (PyVal.dict m) requiredKeys = .ok () :=
      checkRequiredKeys_dict_ok m requiredKeys hall
    refine ⟨?_, ?_, ?_⟩
    · intro g hg hgd
      unfold validate_deepseek_response
      simp only [bind, Except.bind, hm, hreq]
      unfold checkNestedDicts
      simp only [bind, Except.bind, pyIndexStr, hg, hgd]
      rfl
    · intro g p2 hg hp2 hpd
      unfold validate_deepseek_response
      simp only [bind, Except.bind, hm, hreq]
      unfold checkNestedDicts
      simp only [bind, Except.bind, pyIndexStr, hg, hp2, hpd]
      rfl
    · intro g p2 o hg hp2 ho hod
      unfold validate_deepseek_response
      simp only [bind, Except.bind, hm, hreq]
      unfold checkNestedDicts
      simp only [bind, Except.bind, pyIndexStr, hg, hp2, ho, hod]
      rfl
  · -- malformed JSON body
    intro content hcontent hresp e hparse
    subst hresp
    unfold validate_deepseek_response
    have hex : extractInsights parse
        (.dict [("choices", .list [.dict [("message",
          .dict [("content", .str content)])]])]) = .error (.jsonDecode e) := by
      unfold extractInsights
      simp only [bind, Except.bind, pvGetE, pvIndexZero, lookup_cons_eq, Option.getD_some,
        pyTruthy, hparse]
      simp [hcontent]
    simp only [bind, Except.bind, hex]
  · -- the handler reports the validation error
    intro search_term cached deepseek_api_key api msg insights hall hne hpl hkey hstatus
      hjson hstore hval
    obtain ⟨pl, hpl'⟩ : ∃ pl, buildAllPayloads cached = .ok pl := by
      cases hb : buildAllPayloads cached with
      | error e => rw [hb] at hpl; cases hpl
      | ok pl => exact ⟨pl, rfl⟩
    have hempty : cached.isEmpty = false := by
      cases cached with
      | nil => exact absurd rfl hne
      | cons a as => rfl
    unfold handle_get_insights_request
    simp only [hall, hempty, hpl', hkey, hstatus, hjson, hstore, hval,
      Bool.not_true, Bool.false_eq_true, if_false, ne_eq, not_true_eq_false]

/-- Claim C7 witness: a summarizer reply whose parsed content lacks
`opportunity_size` is rejected with a validation error naming exactly
that field. -/
theorem claim_C7_witness :
    validate_deepseek_response
      (fun s =>
        if s = "REPLY" then
          .ok (.dict [("recommended_title", PyVal.str "t"),
            ("recommended_description", PyVal.str "d"),
            ("identified_gaps", PyVal.dict []),
            ("messaging_positioning", PyVal.dict [])])
        else .error "Expecting value: line 1 column 1 (char 0)")
      (.dict [("choices", .list [.dict [("message",
        .dict [("content", PyVal.str "REPLY")])]])]) =
      .error ("Error validating DeepSeek response: " ++
        ("Missing required field: " ++ "opportunity_size")) := by
  exact (claim_C7
      (fun s =>
        if s = "REPLY" then
          .ok (.dict [("recommended_title", PyVal.str "t"),
            ("recommended_description", PyVal.str "d"),
            ("identified_gaps", PyVal.dict []),
            ("messaging_positioning", PyVal.dict [])])
        else .error "Expecting value: line 1 column 1 (char 0)")
      (.dict [("choices", .list [.dict [("message",
        .dict [("content", PyVal.str "REPLY")])]])])).2.1
    [("recommended_title", PyVal.str "t"),
     ("recommended_description", PyVal.str "d"),
     ("identified_gaps", PyVal.dict []),
     ("messaging_positioning", PyVal.dict [])]
    rfl "opportunity_size" rfl
